import Mathlib

/-!
Verification of the cookie-extension core (src/background.js) against its
natural-language specification.

The background service worker is embedded shallowly: each handler becomes a
pure Lean function over an explicit state, with the host browser's APIs
(permission store, cookie store, URL parser, tab liveness) passed in as
explicit parameters.  Asynchronous platform calls that resolve with a value
become function parameters; thrown-and-caught JS exceptions become explicit
result values.
-/

namespace CookieExt

/-- A cookie record as delivered by the host cookie store
(the fields `background.js` reads: name, value, domain, path, secure,
httpOnly, storeId). -/
structure Cookie where
  name : String
  value : String
  domain : String
  path : String
  secure : Bool
  httpOnly : Bool
  storeId : String
  deriving Repr, DecidableEq

/-- JS `pre` + `String.prototype.startsWith`: `s.startsWith(pre)`. -/
def jsStartsWith (s pre : String) : Bool :=
  pre.data.isPrefixOf s.data

/-- JS `hay.includes(needle)`: `needle` occurs as a contiguous substring of
`hay` (`<:+:` is contiguous-sublist containment on the character lists). -/
def strIncludes (hay needle : String) : Bool :=
  decide (needle.data <:+: hay.data)

/-- `cookie.domain.replace(/^\./, '')` (background.js line 297) and the
ternary `cookie.domain.startsWith('.') ? cookie.domain.slice(1) : cookie.domain`
(line 269): strips one leading dot. -/
def stripLeadingDot (s : String) : String :=
  if jsStartsWith s "." then String.mk (s.data.drop 1) else s

/-- The domain-match test on background.js line 301:
`domain === cookieDomain || cookieDomain.includes(domain) || domain.includes(cookieDomain)`
where `d` is a registered tab domain and `c` the change event's
normalized (dot-stripped) cookie domain. -/
def domainsMatch (d c : String) : Bool :=
  (d == c) || strIncludes c d || strIncludes d c

/-- `extractDomain` (background.js lines 254-264).  The host's URL parser
(`new URL(url).hostname`) is the explicit parameter `parse`: `some h` means
parsing succeeds with hostname `h`, `none` means the constructor throws.
The JS try/catch that returns the raw string on a parse failure is the
`none` branch; the function is total, so it never throws. -/
def extractDomain (parse : String → Option String) (url : String) : String :=
  if jsStartsWith url "http" then
    match parse url with
    | some host => host
    | none => url
  else url

/-- Splits a character list at the first `"://"`, returning the text before
it and the text after it; `none` when no `"://"` occurs. -/
def splitSchemeSep : List Char → Option (List Char × List Char)
  | [] => none
  | c :: cs =>
    if c = ':' then
      match cs with
      | '/' :: '/' :: rest => some ([], rest)
      | _ => none
    else
      match splitSchemeSep cs with
      | some (sch, rest) => some (c :: sch, rest)
      | none => none

/-- Characters of the host component: everything up to the first `'/'`. -/
def takeHost : List Char → List Char
  | [] => []
  | c :: cs => if c = '/' then [] else c :: takeHost cs

/-- A concrete executable instance of the host platform's URL parser,
agreeing with WHATWG URL parsing on inputs of the shape
`scheme "://" host ["/" ...]` with a nonempty all-letter scheme and a
nonempty host: the hostname is the text between `"://"` and the next `/`.
Any other input is reported unparseable (`none`).  Used only to instantiate
the abstract `parse` parameter of the theorems at concrete inputs. -/
def simpleParse (url : String) : Option String :=
  match splitSchemeSep url.data with
  | none => none
  | some (sch, rest) =>
    if sch ≠ [] ∧ sch.all Char.isAlpha ∧ takeHost rest ≠ [] then
      some (String.mk (takeHost rest))
    else none

/-- The inbound request envelope `{type, url?, domain?}`.  `none` models an
absent (JS `undefined`) field. -/
structure Message where
  type : String
  url : Option String := none
  domain : Option String := none
  deriving Repr, DecidableEq

/-- JS `a || b` on the two optional string fields (`message.url || message.domain`,
background.js lines 126 and 163): an absent or empty (falsy) `a` falls through
to `b`. -/
def jsOrStr : Option String → Option String → Option String
  | some s, b => if s = "" then b else some s
  | none, b => b

/-- `sender` of an inbound runtime message: `sender.id` (the sending
extension's identity, absent for some senders) and `sender.tab.id`
(absent when the sender is not a tab's content script). -/
structure Sender where
  id : Option String
  tabId : Option Nat
  deriving Repr, DecidableEq

/-- The service worker's mutable state: the Observer Registry
`activeTabDomains` (tab id → registered domain, insertion order kept,
unique keys) and the number of registrations of `handleCookieChange` on
the `chrome.cookies.onChanged` event (the change-stream subscription). -/
structure BGState where
  activeTabDomains : List (Nat × String)
  listenerCount : Nat
  deriving Repr, DecidableEq

/-- The Observer Registry type: `activeTabDomains`. -/
abbrev Registry := List (Nat × String)

/-- `activeTabDomains.set(tabId, d)`: overwrite the existing entry in place,
else append. -/
def registrySet (reg : Registry) (tabId : Nat) (d : String) : Registry :=
  if (reg.lookup tabId).isSome then
    reg.map (fun e => if e.1 = tabId then (tabId, d) else e)
  else reg ++ [(tabId, d)]

/-- `activeTabDomains.delete(tabId)`. -/
def registryDelete (reg : Registry) (tabId : Nat) : Registry :=
  reg.filter (fun e => e.1 != tabId)

/-- The value a response (the argument of `sendResponse` or of
`chrome.tabs.sendMessage`) can take, tagged as in background.js. -/
inductive Response where
  /-- `{type:'PERMISSION_CHECK_RESULT', hasPermission}` -/
  | permissionCheckResult (hasPermission : Bool)
  /-- `{type:'PERMISSION_GRANTED'}` -/
  | permissionGranted
  /-- `{type:'PERMISSION_DENIED'}` -/
  | permissionDenied
  /-- `{type:'PERMISSION_REVOKED'}` -/
  | permissionRevoked
  /-- `{type:'COOKIES_DATA', cookies, domain}` — `domain` is `none` when the
  handler's extracted domain was the JS value `undefined` -/
  | cookiesData (cookies : List Cookie) (domain : Option String)
  /-- `{type:'COOKIES_CLEARED', domain}` — `domain` as above -/
  | cookiesCleared (domain : Option String)
  /-- `{type:'ERROR', message}` -/
  | error (message : String)
  /-- `{error: message}` — the dispatcher's default branch and its outer catch -/
  | plainError (message : String)
  deriving Repr, DecidableEq

/-- The platform's TypeError message produced by reading `sender.tab.id`
when `sender.tab` is absent (exact text is host-specific; only its identity
as some fixed string matters). -/
def jsTypeErrorText : String := "Cannot read properties of undefined (reading 'id')"

/-- `getCookiesForDomain` (background.js lines 240-251).  The raw platform
call `chrome.cookies.getAll({domain})` is the parameter `getAllRaw`; its
argument is the domain filter, which can be the JS value `undefined`
(`none`), in which case the platform queries the whole store unfiltered.
A `none` result means the call failed (`chrome.runtime.lastError` set), in
which case the failure is logged and the promise resolves with `[]`;
otherwise it resolves with the returned list (`cookies || []`). -/
def getCookiesForDomain (getAllRaw : Option String → Option (List Cookie))
    (domain : Option String) : List Cookie :=
  match getAllRaw domain with
  | none => []
  | some cs => cs

/-- `constructCookieUrl` (background.js lines 267-271). -/
def constructCookieUrl (c : Cookie) : String :=
  (if c.secure then "https://" else "http://") ++ stripLeadingDot c.domain ++ c.path

/-- `setupCookieListener` (background.js lines 274-288), acting on the number
of live registrations of `handleCookieChange`: when the capability is held and
the cookies API is available, an already-present registration is removed
(`hasListener` / `removeListener`) and then one registration is added;
otherwise nothing changes.  `perm` is the awaited `checkCookiePermission()`
result, `apiAvail` is `chrome.cookies && chrome.cookies.onChanged`. -/
def setupCookieListener (perm apiAvail : Bool) (count : Nat) : Nat :=
  if perm && apiAvail then
    (if count > 0 then count - 1 else count) + 1
  else count

/-- `handlePermissionCheck` (background.js lines 48-67).  When the capability
is held the listener is (re)armed and the sender's tab is registered at the
message's domain; reading `sender.tab.id` with no tab throws after the
listener setup, and the local catch answers `{type:'ERROR'}`.  An absent
`domain` field is modeled as `""` (the content script always sends one). -/
def handlePermissionCheck (perm apiAvail : Bool) (msg : Message)
    (senderTab : Option Nat) (st : BGState) : BGState × Response :=
  if perm then
    let c := setupCookieListener perm apiAvail st.listenerCount
    match senderTab with
    | none => ({ st with listenerCount := c }, .error "Failed to check permissions")
    | some tabId =>
        ({ activeTabDomains := registrySet st.activeTabDomains tabId (msg.domain.getD ""),
           listenerCount := c },
         .permissionCheckResult true)
  else (st, .permissionCheckResult false)

/-- `handlePermissionRequest` (background.js lines 70-110).  `granted` is the
outcome of the host consent prompt.  On grant: arm the listener, register the
tab, reply `PERMISSION_GRANTED` (the duplicate push of the same tag over
`chrome.tabs.sendMessage` is not tracked).  With no sender tab, reading
`sender.tab.id` throws (in both branches) and the catch rethrows the same
way, so the dispatcher's outer catch replies `{error: <TypeError text>}`. -/
def handlePermissionRequest (granted apiAvail : Bool) (msg : Message)
    (senderTab : Option Nat) (st : BGState) : BGState × Response :=
  if granted then
    let c := setupCookieListener true apiAvail st.listenerCount
    match senderTab with
    | none => ({ st with listenerCount := c }, .plainError jsTypeErrorText)
    | some tabId =>
        ({ activeTabDomains := registrySet st.activeTabDomains tabId (msg.domain.getD ""),
           listenerCount := c },
         .permissionGranted)
  else
    match senderTab with
    | none => (st, .plainError jsTypeErrorText)
    | some _ => (st, .permissionDenied)

/-- Result of `handleFetchCookies`: final state, the `sendResponse` value,
the messages pushed to the sender's tab over `chrome.tabs.sendMessage`, and
the domains passed to the cookie-store query. -/
structure FetchResult where
  state : BGState
  response : Response
  tabPushes : List Response
  queried : List (Option String)
  deriving Repr, DecidableEq

/-- `handleFetchCookies` (background.js lines 113-147).  Without the
capability: a `{type:'ERROR', message:'Cookie permission not granted'}` reply
(also pushed to the tab), no query.  With it: extract the domain from
`message.url || message.domain`, query the store, reply `COOKIES_DATA`.
When url and domain are both absent/falsy, `extractDomain(undefined)`
catches its own TypeError and returns `undefined` (the `.map` over `none`),
so the handler queries the store with an undefined — i.e. absent — domain
filter and still replies `COOKIES_DATA`.  With no sender tab,
`sender.tab.id` throws (again inside the local catch), so the dispatcher's
outer catch replies `{error: <TypeError text>}`; in the capability-held path
the store query has already run by then. -/
def handleFetchCookies (perm : Bool) (parse : String → Option String)
    (getAllRaw : Option String → Option (List Cookie)) (msg : Message)
    (senderTab : Option Nat) (st : BGState) : FetchResult :=
  match senderTab with
  | none =>
      if !perm then ⟨st, .plainError jsTypeErrorText, [], []⟩
      else
        let domain := (jsOrStr msg.url msg.domain).map (extractDomain parse)
        ⟨st, .plainError jsTypeErrorText, [], [domain]⟩
  | some _ =>
      if !perm then
        ⟨st, .error "Cookie permission not granted",
         [.error "Cookie permission not granted"], []⟩
      else
        let domain := (jsOrStr msg.url msg.domain).map (extractDomain parse)
        let cookies := getCookiesForDomain getAllRaw domain
        ⟨st, .cookiesData cookies domain, [.cookiesData cookies domain], [domain]⟩

/-- A `chrome.cookies.remove({url, name, storeId})` call issued by the clear
handler. -/
structure RemoveOp where
  url : String
  name : String
  storeId : String
  deriving Repr, DecidableEq

/-- Result of `handleClearDomainCookies`: final state, reply, tab pushes,
queried domains, and the deletion calls issued against the cookie store. -/
structure ClearResult where
  state : BGState
  response : Response
  tabPushes : List Response
  queried : List (Option String)
  removes : List RemoveOp
  deriving Repr, DecidableEq

/-- `handleClearDomainCookies` (background.js lines 150-199).  Without the
capability: the not-granted error, no query, no deletions.  With it: fetch
the record set for the extracted domain and issue one removal per record
(addressed by `constructCookieUrl`), then reply `COOKIES_CLEARED`.  As in
`handleFetchCookies`, absent url and domain make the extracted domain the
JS value `undefined`, so the fetch is unfiltered and every fetched record —
the whole store — is removed.  The sender-tab-less throw paths also mirror
`handleFetchCookies`: the query and the removals have already run when
`sender.tab.id` throws. -/
def handleClearDomainCookies (perm : Bool) (parse : String → Option String)
    (getAllRaw : Option String → Option (List Cookie)) (msg : Message)
    (senderTab : Option Nat) (st : BGState) : ClearResult :=
  match senderTab with
  | none =>
      if !perm then ⟨st, .plainError jsTypeErrorText, [], [], []⟩
      else
        let domain := (jsOrStr msg.url msg.domain).map (extractDomain parse)
        let cookies := getCookiesForDomain getAllRaw domain
        ⟨st, .plainError jsTypeErrorText, [], [domain],
         cookies.map fun ck => ⟨constructCookieUrl ck, ck.name, ck.storeId⟩⟩
  | some _ =>
      if !perm then
        ⟨st, .error "Cookie permission not granted",
         [.error "Cookie permission not granted"], [], []⟩
      else
        let domain := (jsOrStr msg.url msg.domain).map (extractDomain parse)
        let cookies := getCookiesForDomain getAllRaw domain
        ⟨st, .cookiesCleared domain, [.cookiesCleared domain], [domain],
         cookies.map fun ck => ⟨constructCookieUrl ck, ck.name, ck.storeId⟩⟩

/-- The effect of a batch of `chrome.cookies.remove` calls on a cookie store:
every record addressed by some issued operation is gone.  Used to state that
an empty batch leaves any store unchanged. -/
def applyRemoves (ops : List RemoveOp) (store : List Cookie) : List Cookie :=
  store.filter fun c =>
    !(ops.any fun o => o.url == constructCookieUrl c && o.name == c.name && o.storeId == c.storeId)

/-- `handleRevokePermission` (background.js lines 202-230).  `removeResult`
is the outcome of `chrome.permissions.remove`.  On success: the listener
registration (if the cookies API is reachable and one is present) is removed,
the Observer Registry is cleared, and `PERMISSION_REVOKED` is replied.  On
failure: state untouched, `{type:'ERROR'}` replied. -/
def handleRevokePermission (removeResult apiAvail : Bool) (st : BGState) :
    BGState × Response :=
  if removeResult then
    ({ activeTabDomains := [],
       listenerCount :=
         if apiAvail && decide (st.listenerCount > 0) then st.listenerCount - 1
         else st.listenerCount },
     .permissionRevoked)
  else (st, .error "Failed to revoke permission")

/-- The host environment visible to the dispatcher: the process's own
identity `chrome.runtime.id`, permission-store answers, and the platform
calls the handlers suspend on. -/
structure Env where
  selfId : String
  perm : Bool
  grantResult : Bool
  removeResult : Bool
  apiAvail : Bool
  parse : String → Option String
  getAllRaw : Option String → Option (List Cookie)

/-- The `chrome.runtime.onMessage` dispatcher of the service worker
(background.js lines 9-45): routes by `message.type` to exactly one handler
and always replies — the default branch replies `{error:'Unknown message type'}`
and the outer catch turns any thrown handler error into `{error: e.message}`.
`sender.id` is never consulted anywhere in this listener; only
`sender.tab.id` is used, inside individual handlers.  `none` in the result
means no `sendResponse` call was made. -/
def bgDispatch (env : Env) (msg : Message) (sender : Sender) (st : BGState) :
    BGState × Option Response :=
  if msg.type = "CHECK_PERMISSION" then
    let p := handlePermissionCheck env.perm env.apiAvail msg sender.tabId st
    (p.1, some p.2)
  else if msg.type = "REQUEST_COOKIE_PERMISSION" then
    let p := handlePermissionRequest env.grantResult env.apiAvail msg sender.tabId st
    (p.1, some p.2)
  else if msg.type = "FETCH_COOKIES" then
    let r := handleFetchCookies env.perm env.parse env.getAllRaw msg sender.tabId st
    (r.state, some r.response)
  else if msg.type = "CLEAR_DOMAIN_COOKIES" then
    let r := handleClearDomainCookies env.perm env.parse env.getAllRaw msg sender.tabId st
    (r.state, some r.response)
  else if msg.type = "REVOKE_COOKIE_PERMISSION" then
    let p := handleRevokePermission env.removeResult env.apiAvail st
    (p.1, some p.2)
  else
    (st, some (.plainError "Unknown message type"))

/-- A `ChangeEvent` from the host's change stream:
`{cookie, cause, removed}`. -/
structure ChangeInfo where
  cookie : Cookie
  cause : String
  removed : Bool
  deriving Repr, DecidableEq

/-- A delivered `REAL_TIME_COOKIE_UPDATE` push:
`chrome.tabs.sendMessage(tabId, {type:'REAL_TIME_COOKIE_UPDATE', cookies,
domain, changeInfo:{cause, removed}})`. -/
structure Push where
  tabId : Nat
  cookies : List Cookie
  domain : String
  cause : String
  removed : Bool
  deriving Repr, DecidableEq

/-- The fan-out loop of `handleCookieChange` (background.js lines 300-323):
walk the registry entries in order; for each whose registered domain matches
the normalized event domain `c`, re-fetch that domain's record set and push
it; a delivery failure (`alive tabId = false`: the tab is gone and
`chrome.tabs.sendMessage` rejects) evicts that entry and delivers nothing to
it, without disturbing the rest. -/
def fanout (getAllRaw : Option String → Option (List Cookie)) (alive : Nat → Bool)
    (c : String) (ci : ChangeInfo) : Registry → Registry × List Push
  | [] => ([], [])
  | (tabId, d) :: rest =>
    let r := fanout getAllRaw alive c ci rest
    if domainsMatch d c then
      if alive tabId then
        ((tabId, d) :: r.1,
         ⟨tabId, getCookiesForDomain getAllRaw (some d), d, ci.cause, ci.removed⟩ :: r.2)
      else (r.1, r.2)
    else ((tabId, d) :: r.1, r.2)

/-- `handleCookieChange` (background.js lines 291-327): re-check the
capability first — if it is gone the event is dropped (registry untouched, no
push); otherwise strip the event domain's leading dot and fan out. -/
def handleCookieChange (perm : Bool) (getAllRaw : Option String → Option (List Cookie))
    (alive : Nat → Bool) (reg : Registry) (ci : ChangeInfo) :
    Registry × List Push :=
  if !perm then (reg, [])
  else fanout getAllRaw alive (stripLeadingDot ci.cookie.domain) ci reg

/-- The `chrome.tabs.onRemoved` listener (background.js lines 330-332):
drop the closed tab's registry entry. -/
def onTabRemoved (reg : Registry) (tabId : Nat) : Registry :=
  registryDelete reg tabId

/-- The `chrome.tabs.onUpdated` listener (background.js lines 335-344):
when the update carries a (truthy) url and the tab is registered, extract the
new domain; if it differs from the registered one, drop the entry. -/
def onTabUpdated (parse : String → Option String) (reg : Registry) (tabId : Nat)
    (changeUrl : Option String) : Registry :=
  match changeUrl with
  | none => reg
  | some url =>
    if url = "" then reg
    else
      match reg.lookup tabId with
      | none => reg
      | some oldDomain =>
          if extractDomain parse url ≠ oldDomain then registryDelete reg tabId else reg

end CookieExt

example : CookieExt.simpleParse "https://example.com/x" = some "example.com" := by decide
example : CookieExt.simpleParse "ftp://example.com/" = some "example.com" := by decide
example : CookieExt.simpleParse "example.com" = none := by decide
example : CookieExt.extractDomain CookieExt.simpleParse "https://sub.example.com/a/b" = "sub.example.com" := by decide
example : CookieExt.extractDomain CookieExt.simpleParse "example.com" = "example.com" := by decide
example : CookieExt.extractDomain CookieExt.simpleParse "ftp://example.com/" = "ftp://example.com/" := by decide
example : CookieExt.stripLeadingDot ".example.com" = "example.com" := by decide
example : CookieExt.domainsMatch "example.com" "sub.example.com" = true := by decide
example : CookieExt.domainsMatch "example.com" "notexample.com" = true := by decide
example : CookieExt.domainsMatch "a.com" "b.org" = false := by decide
example : CookieExt.domainsMatch "" "anything.com" = true := by decide

namespace CookieExt

/-- C1: the claim states that the core's message dispatcher drops (with no
response) every observer-to-core message whose sender identity differs from
the process's own identity.  The dispatcher in background.js never reads
`sender.id`: a `FETCH_COOKIES` message from a sender identifying as a
different extension is routed to its handler and answered — here with the
not-granted error, since the capability is not held — instead of being
dropped without a response. -/
theorem c1_dispatcher_replies_to_foreign_sender :
    (("attacker-extension" : String) == "self-extension") = false
    ∧ (bgDispatch
        ⟨"self-extension", false, false, false, false, fun _ => none, fun _ => none⟩
        { type := "FETCH_COOKIES", url := some "https://example.com/" }
        ⟨some "attacker-extension", some 7⟩ ⟨[], 0⟩).2
      = some (.error "Cookie permission not granted") := by
  exact ⟨by decide, by decide⟩

/-- C2: if the capability is not held at the moment of delivery (it is
re-checked at the start of `handleCookieChange`), no push is sent to any
observer and the registry is untouched, regardless of the event and of any
domain matches. -/
theorem c2_no_push_without_capability (getAllRaw : Option String → Option (List Cookie))
    (alive : Nat → Bool) (reg : Registry) (ci : ChangeInfo) :
    handleCookieChange false getAllRaw alive reg ci = (reg, []) := rfl

/-- C5: the Domain Matcher matches a stored domain `d` against a normalized
event domain `c` exactly when `d = c`, or `c` contains `d` as a substring,
or `d` contains `c` as a substring; consequently the relation is symmetric
in `d` and `c`. -/
theorem c5_matcher_characterization (d c : String) :
    (domainsMatch d c = true ↔ (d = c ∨ d.data <:+: c.data ∨ c.data <:+: d.data))
    ∧ domainsMatch d c = domainsMatch c d := by
  have hchar : ∀ x y : String,
      domainsMatch x y = true ↔ (x = y ∨ x.data <:+: y.data ∨ y.data <:+: x.data) := by
    intro x y
    simp [domainsMatch, strIncludes, or_assoc]
  refine ⟨hchar d c, ?_⟩
  have hb : ∀ x y : Bool, (x = true ↔ y = true) → x = y := by
    intro x y hxy
    cases x <;> cases y <;> simp_all
  apply hb
  rw [hchar d c, hchar c d]
  constructor
  · rintro (h | h | h)
    · exact Or.inl h.symm
    · exact Or.inr (Or.inr h)
    · exact Or.inr (Or.inl h)
  · rintro (h | h | h)
    · exact Or.inl h.symm
    · exact Or.inr (Or.inr h)
    · exact Or.inr (Or.inl h)

/-- An empty batch of removals leaves any cookie store unchanged. -/
theorem applyRemoves_nil (store : List Cookie) : applyRemoves [] store = store := by
  induction store with
  | nil => rfl
  | cons ck cks ih =>
      simp only [applyRemoves, List.any_nil, Bool.not_false, List.filter_cons_of_pos]
      simp [applyRemoves] at ih
      simp [ih]

/-- C7: a `FETCH_COOKIES` or `CLEAR_DOMAIN_COOKIES` request made while the
capability is not held is answered with the typed not-granted error; no
deletion is issued, the Observer Registry (the whole state) is unchanged,
and the cookie store is left as it was. -/
theorem c7_capability_required (parse : String → Option String)
    (getAllRaw : Option String → Option (List Cookie)) (msg : Message) (t : Nat)
    (st : BGState) (store : List Cookie) :
    handleFetchCookies false parse getAllRaw msg (some t) st =
      ⟨st, .error "Cookie permission not granted",
       [.error "Cookie permission not granted"], []⟩
    ∧ handleClearDomainCookies false parse getAllRaw msg (some t) st =
      ⟨st, .error "Cookie permission not granted",
       [.error "Cookie permission not granted"], [], []⟩
    ∧ applyRemoves (handleClearDomainCookies false parse getAllRaw msg (some t) st).removes
        store = store := by
  refine ⟨rfl, rfl, ?_⟩
  show applyRemoves [] store = store
  exact applyRemoves_nil store

/-- C8: the claim states that domain extraction returns the URL's hostname
whenever the input is a parseable URL.  `extractDomain` only attempts URL
parsing when the input starts with `"http"`: the parseable URL
`ftp://example.com/` (hostname `example.com`) comes back verbatim instead
of as its hostname. -/
theorem c8_counterexample :
    simpleParse "ftp://example.com/" = some "example.com"
    ∧ extractDomain simpleParse "ftp://example.com/" = "ftp://example.com/"
    ∧ (("ftp://example.com/" : String) == "example.com") = false := by
  exact ⟨by decide, by decide, by decide⟩

/-- C8 (amended): domain extraction returns the URL's hostname when the
input starts with `"http"` and parses; it returns the raw input unchanged
both when the input does not start with `"http"` (bare hostnames included)
and when parsing fails; it is total, so a malformed URL never fails the
request. -/
theorem c8_extract_domain_behavior (parse : String → Option String) (url host : String) :
    (jsStartsWith url "http" = true → parse url = some host →
      extractDomain parse url = host)
    ∧ (jsStartsWith url "http" = true → parse url = none →
      extractDomain parse url = url)
    ∧ (jsStartsWith url "http" = false → extractDomain parse url = url) := by
  refine ⟨?_, ?_, ?_⟩
  · intro h1 h2
    simp [extractDomain, h1, h2]
  · intro h1 h2
    simp [extractDomain, h1, h2]
  · intro h1
    simp [extractDomain, h1]

/-- Witness for `c8_extract_domain_behavior` at concrete inputs: a parsed
https URL, an unparseable string starting with `"http"`, and a bare
hostname. -/
theorem c8_witness :
    extractDomain simpleParse "https://sub.example.com/p" = "sub.example.com"
    ∧ extractDomain simpleParse "http//x" = "http//x"
    ∧ extractDomain simpleParse "localhost" = "localhost" :=
  ⟨(c8_extract_domain_behavior simpleParse "https://sub.example.com/p"
      "sub.example.com").1 (by decide) (by decide),
   (c8_extract_domain_behavior simpleParse "http//x" "").2.1 (by decide) (by decide),
   (c8_extract_domain_behavior simpleParse "localhost" "").2.2 (by decide)⟩

/-- C3: a `REVOKE_COOKIE_PERMISSION` request for which the host reports the
capability removed tears the change-stream listener down (to zero live
registrations, from the reachable states with at most one), clears the
Observer Registry to empty and replies `PERMISSION_REVOKED`; when the host
reports failure, the state — registry and subscription — is untouched and a
typed error is replied. -/
theorem c3_revoke_total_or_unchanged (st : BGState) (apiAvail : Bool)
    (h : st.listenerCount ≤ 1) :
    (handleRevokePermission true true st).1.activeTabDomains = []
    ∧ (handleRevokePermission true true st).1.listenerCount = 0
    ∧ (handleRevokePermission true true st).2 = Response.permissionRevoked
    ∧ handleRevokePermission false apiAvail st =
        (st, .error "Failed to revoke permission") := by
  refine ⟨rfl, ?_, rfl, rfl⟩
  by_cases hz : st.listenerCount = 0
  · simp [handleRevokePermission, hz]
  · have h1 : st.listenerCount = 1 := by omega
    simp [handleRevokePermission, h1]

/-- Witness for `c3_revoke_total_or_unchanged`: one registered tab and a
live listener. -/
theorem c3_witness :
    (handleRevokePermission true true ⟨[(3, "example.com")], 1⟩).1.activeTabDomains = []
    ∧ (handleRevokePermission true true ⟨[(3, "example.com")], 1⟩).1.listenerCount = 0
    ∧ (handleRevokePermission true true ⟨[(3, "example.com")], 1⟩).2 =
        Response.permissionRevoked
    ∧ handleRevokePermission false false ⟨[(3, "example.com")], 1⟩ =
        (⟨[(3, "example.com")], 1⟩, .error "Failed to revoke permission") :=
  c3_revoke_total_or_unchanged ⟨[(3, "example.com")], 1⟩ false (by decide)

/-- C4: the claim states that a failed platform cookie-store query is
surfaced to the observer as a generic typed error response.  In the code the
wrapper resolves a failed `chrome.cookies.getAll` with `[]`, so the fetch
handler — capability held, every query failing — replies with the *success*
tag `COOKIES_DATA` (and an empty record set), not with an error. -/
theorem c4_counterexample :
    (handleFetchCookies true simpleParse (fun _ => none)
        { type := "FETCH_COOKIES", url := some "https://example.com/",
          domain := some "example.com" }
        (some 1) ⟨[], 1⟩).response = Response.cookiesData [] (some "example.com") := by
  decide

/-- C4 (amended): when the capability is held and the underlying
cookie-store query for the extracted domain fails, the failure is logged and
absorbed: the observer receives a successful `COOKIES_DATA` response with an
empty record set (the generic typed error is produced only for exceptions
thrown inside the handler, not for a failed query). -/
theorem c4_store_failure_returns_empty_success (parse : String → Option String)
    (getAllRaw : Option String → Option (List Cookie)) (msg : Message) (t : Nat)
    (st : BGState) (u : String)
    (hu : jsOrStr msg.url msg.domain = some u)
    (hfail : getAllRaw (some (extractDomain parse u)) = none) :
    handleFetchCookies true parse getAllRaw msg (some t) st =
      ⟨st, .cookiesData [] (some (extractDomain parse u)),
       [.cookiesData [] (some (extractDomain parse u))], [some (extractDomain parse u)]⟩ := by
  simp [handleFetchCookies, hu, getCookiesForDomain, hfail]

/-- Witness for `c4_store_failure_returns_empty_success` at a concrete
request against a store whose queries all fail. -/
theorem c4_witness :
    handleFetchCookies true simpleParse (fun _ => none)
        { type := "FETCH_COOKIES", url := some "https://example.com/",
          domain := some "example.com" }
        (some 2) ⟨[], 1⟩ =
      ⟨⟨[], 1⟩, .cookiesData [] (some "example.com"),
       [.cookiesData [] (some "example.com")], [some "example.com"]⟩ :=
  (c4_store_failure_returns_empty_success simpleParse (fun _ => none)
      { type := "FETCH_COOKIES", url := some "https://example.com/",
        domain := some "example.com" }
      2 ⟨[], 1⟩ "https://example.com/" (by decide) (by decide)).trans (by decide)

/-- One setup call from a reachable listener count (at most one
registration) leaves exactly one registration. -/
theorem setup_sets_one (c : Nat) (h : c ≤ 1) : setupCookieListener true true c = 1 := by
  interval_cases c <;> rfl

/-- Iterating setup from one live registration stays at exactly one. -/
theorem setup_keeps_one (n : Nat) :
    (fun c => setupCookieListener true true c)^[n] 1 = 1 := by
  induction n with
  | zero => rfl
  | succ k ih =>
      rw [Function.iterate_succ_apply]
      exact ih

/-- C6: invoking the subscription setup any positive number of times in
succession, while the capability is held and the cookies API is reachable,
leaves exactly one live change-stream listener — never two, never zero —
starting from any reachable listener count (at most one). -/
theorem c6_setup_idempotent (n count : Nat) (h : count ≤ 1) :
    (fun c => setupCookieListener true true c)^[n + 1] count = 1 := by
  rw [Function.iterate_succ_apply]
  rw [show setupCookieListener true true count = 1 from setup_sets_one count h]
  exact setup_keeps_one n

/-- Witness for `c6_setup_idempotent`: two setup calls in succession from no
listener yield exactly one. -/
theorem c6_witness : (fun c => setupCookieListener true true c)^[2] 0 = 1 :=
  c6_setup_idempotent 1 0 (by decide)

/-- Deleting a tab's registry entry makes that tab unregistered. -/
theorem lookup_registryDelete_self (reg : Registry) (t : Nat) :
    (registryDelete reg t).lookup t = none := by
  induction reg with
  | nil => rfl
  | cons hd tl ih =>
      obtain ⟨k, v⟩ := hd
      by_cases hk : k = t
      · subst hk
        simpa [registryDelete, List.filter] using ih
      · have h1 : (k != t) = true := by simp [hk]
        have h2 : (t == k) = false := by simp [Ne.symm hk]
        simp only [registryDelete, List.filter, h1, List.lookup, h2]
        exact ih

/-- Deleting one tab's registry entry leaves every other tab's lookup
unchanged. -/
theorem lookup_registryDelete_ne (reg : Registry) (t u : Nat) (h : u ≠ t) :
    (registryDelete reg t).lookup u = reg.lookup u := by
  induction reg with
  | nil => rfl
  | cons hd tl ih =>
      obtain ⟨k, v⟩ := hd
      by_cases hk : k = t
      · subst hk
        have h1 : (k != k) = false := by simp
        have h2 : (u == k) = false := by simp [h]
        simp only [registryDelete, List.filter, h1, List.lookup, h2]
        exact ih
      · by_cases hku : k = u
        · subst hku
          have h1 : (k != t) = true := by simp [hk]
          have h2 : (k == k) = true := by simp
          simp only [registryDelete, List.filter, h1, List.lookup, h2]
        · have h1 : (k != t) = true := by simp [hk]
          have h2 : (u == k) = false := by simp [Ne.symm hku]
          simp only [registryDelete, List.filter, h1, List.lookup, h2]
          exact ih

/-- C9: Observer Registry teardown.  Closing a tab removes exactly that
tab's entry (its lookup becomes `none`, any other tab's lookup is
unchanged); a registered tab navigating to a URL whose extracted domain
differs from its registered one has its entry removed (same single-entry
deletion, so other tabs are again untouched); navigation within the same
domain leaves the registry unchanged. -/
theorem c9_registry_teardown (parse : String → Option String) (reg : Registry)
    (tabId u : Nat) (url old : String)
    (hreg : reg.lookup tabId = some old) (hurl : url ≠ "") (hu : u ≠ tabId) :
    (onTabRemoved reg tabId).lookup tabId = none
    ∧ (onTabRemoved reg tabId).lookup u = reg.lookup u
    ∧ (extractDomain parse url ≠ old →
        onTabUpdated parse reg tabId (some url) = registryDelete reg tabId)
    ∧ (extractDomain parse url = old →
        onTabUpdated parse reg tabId (some url) = reg) := by
  refine ⟨lookup_registryDelete_self reg tabId,
          lookup_registryDelete_ne reg tabId u hu, ?_, ?_⟩
  · intro hne
    simp [onTabUpdated, hurl, hreg, hne]
  · intro heq
    simp [onTabUpdated, hurl, hreg, heq]

/-- Witness for `c9_registry_teardown`: two registered tabs; tab 1 is
closed, or navigates away (`newsite.com`), or navigates within its domain
(`example.com`). -/
theorem c9_witness :
    (onTabRemoved [(1, "example.com"), (2, "other.com")] 1).lookup 1 = none
    ∧ (onTabRemoved [(1, "example.com"), (2, "other.com")] 1).lookup 2
        = ([(1, "example.com"), (2, "other.com")] : Registry).lookup 2
    ∧ onTabUpdated simpleParse [(1, "example.com"), (2, "other.com")] 1
        (some "https://newsite.com/")
        = registryDelete [(1, "example.com"), (2, "other.com")] 1
    ∧ onTabUpdated simpleParse [(1, "example.com"), (2, "other.com")] 1
        (some "https://example.com/account")
        = [(1, "example.com"), (2, "other.com")] := by
  have h1 := c9_registry_teardown simpleParse [(1, "example.com"), (2, "other.com")]
      1 2 "https://newsite.com/" "example.com" (by decide) (by decide) (by decide)
  have h2 := c9_registry_teardown simpleParse [(1, "example.com"), (2, "other.com")]
      1 2 "https://example.com/account" "example.com" (by decide) (by decide) (by decide)
  exact ⟨h1.1, h1.2.1, h1.2.2.1 (by decide), h2.2.2.2 (by decide)⟩

/-- The empty registered domain matches every event domain: substring
containment of the empty string always holds. -/
theorem domainsMatch_empty_left (c : String) : domainsMatch "" c = true := by
  have : ("" : String).data <:+: c.data := ⟨[], c.data, by simp⟩
  simp [domainsMatch, strIncludes, this]

/-- A registered, reachable tab whose domain matches the normalized event
domain receives the re-fetched snapshot push from the fan-out loop. -/
theorem push_mem_fanout (getAllRaw : Option String → Option (List Cookie))
    (alive : Nat → Bool) (c : String) (ci : ChangeInfo) (reg : Registry)
    (tab : Nat) (d : String)
    (hmem : (tab, d) ∈ reg) (hmatch : domainsMatch d c = true)
    (halive : alive tab = true) :
    (⟨tab, getCookiesForDomain getAllRaw (some d), d, ci.cause, ci.removed⟩ : Push)
      ∈ (fanout getAllRaw alive c ci reg).2 := by
  induction reg with
  | nil => cases hmem
  | cons hd tl ih =>
      obtain ⟨k, v⟩ := hd
      rcases List.mem_cons.mp hmem with heq | htl
      · injection heq with hk hv
        subst hk
        subst hv
        simp [fanout, hmatch, halive]
      · have h2 := ih htl
        by_cases hm : domainsMatch v c = true
        · by_cases ha : alive k = true
          · simp [fanout, hm, ha]
            exact Or.inr h2
          · simp [fanout, hm, ha]
            exact h2
        · simp [fanout, hm]
          exact h2

/-- C10: an observer registered at the empty-string domain matches every
change event, so while the capability is held (and the observer's tab is
reachable) it receives a pushed `REAL_TIME_COOKIE_UPDATE` for every cookie
change in the store. -/
theorem c10_empty_domain_matches_all (getAllRaw : Option String → Option (List Cookie))
    (alive : Nat → Bool) (reg : Registry) (ci : ChangeInfo) (tab : Nat)
    (hmem : (tab, "") ∈ reg) (halive : alive tab = true) :
    (⟨tab, getCookiesForDomain getAllRaw (some ""), "", ci.cause, ci.removed⟩ : Push)
      ∈ (handleCookieChange true getAllRaw alive reg ci).2 := by
  have h := push_mem_fanout getAllRaw alive (stripLeadingDot ci.cookie.domain) ci reg
      tab "" hmem (domainsMatch_empty_left _) halive
  simpa [handleCookieChange] using h

/-- Witness for `c10_empty_domain_matches_all`: tab 5 registered at `""`
receives a push for a change to a cookie of `.example.com`. -/
theorem c10_witness :
    (⟨5, getCookiesForDomain (fun _ => some []) (some ""), "", "explicit", false⟩ : Push)
      ∈ (handleCookieChange true (fun _ => some []) (fun _ => true) [(5, "")]
          ⟨⟨"sid", "v", ".example.com", "/", true, false, "0"⟩, "explicit", false⟩).2 :=
  c10_empty_domain_matches_all (fun _ => some []) (fun _ => true) [(5, "")]
    ⟨⟨"sid", "v", ".example.com", "/", true, false, "0"⟩, "explicit", false⟩ 5
    (by decide) rfl

end CookieExt
